import Mathlib

/-!
Shallow embedding of the nabud NABU-Adaptor core (src/nabud/adaptor.c and
src/nabud/conn.c) for checking the natural-language specification.

Bytes are modelled as `Nat` (with `% 256` where the C code truncates to
`uint8_t`), buffers as `List Nat`, fallible receives as `Option`, and the
connection-registry concurrency as an explicit labelled step relation.

Constants and helpers that live in `libnabud/nabu_proto.h` and
`libnabud/crc16_genibus.h` (part of the repository but not under `src/`) are
modelled from the spec; each such definition says so in its doc comment.
-/

/-! ### Protocol constants -/

/-- Modelled from the spec: `NABU_MSG_ESCAPE` is declared in
`libnabud/nabu_proto.h`, which is not under `src/`.  The spec's byte-exact
handshake sequences (ACK = 10 06, FINISHED = 10 E1) use 0x10 as the sentinel
prefix; none of the theorems below depend on the concrete value. -/
def NABU_MSG_ESCAPE : Nat := 0x10

/-- Modelled from the spec (§4.2 constants): `MAXPAYLOAD = 991`. -/
def NABU_MAXPAYLOADSIZE : Nat := 991

/-- Modelled from the spec (§4.2 constants): `HEADER = 16`. -/
def NABU_HEADERSIZE : Nat := 16

/-- Modelled from the spec (§4.2 constants): `FOOTER = 2`. -/
def NABU_FOOTERSIZE : Nat := 2

/-- Modelled from the spec (§4.2 constants):
`TOTAL_WITH_FRAME = HEADER + MAXPAYLOAD + FOOTER = 1009`. -/
def NABU_TOTALPAYLOADSIZE : Nat := 1009

/-- Modelled from the spec (§4.2 constants): `MAXPACKET = TOTAL_WITH_FRAME`. -/
def NABU_MAXPACKETSIZE : Nat := 1009

/-- Modelled from the spec (S3): the time pseudo-image id is 0x7FFFFF. -/
def NABU_IMAGE_TIME : Nat := 0x7FFFFF

/-- Modelled from the spec (§4.7): the classic opcode block starts at 0x80. -/
def NABU_MSG_CLASSIC_FIRST : Nat := 0x80

/-- Modelled from the spec (§4.7): the classic opcode block ends at 0xEF. -/
def NABU_MSG_CLASSIC_LAST : Nat := 0xEF

/-- Modelled from the spec (§4.7): `IS_CLASSIC(b)` is the range check
`0x80 ≤ b ≤ 0xEF`. -/
def NABU_MSG_IS_CLASSIC (b : Nat) : Bool :=
  decide (NABU_MSG_CLASSIC_FIRST ≤ b ∧ b ≤ NABU_MSG_CLASSIC_LAST)

/-! ### CRC-16/GENIBUS

Modelled from the spec (§4.2, glossary, §8 property 2): polynomial 0x1021,
init 0xFFFF, no reflection, xor-out 0xFFFF; `crc16_genibus.h` is part of the
repository but not under `src/`. -/

/-- One MSB-first shift step of the 0x1021 polynomial, on a 16-bit value. -/
def crc16_genibus_step (crc : Nat) : Nat :=
  if Nat.testBit crc 15 then ((crc * 2) ^^^ 0x1021) % 65536 else (crc * 2) % 65536

/-- Iterate `crc16_genibus_step` the given number of times. -/
def crc16_shiftN : Nat → Nat → Nat
  | 0, crc => crc
  | n + 1, crc => crc16_shiftN n (crc16_genibus_step crc)

/-- Absorb one byte into the running CRC (MSB-first, no reflection). -/
def crc16_genibus_update1 (crc b : Nat) : Nat :=
  crc16_shiftN 8 (crc ^^^ (b % 256 * 256))

/-- Modelled from the spec: the init value is 0xFFFF. -/
def crc16_genibus_init : Nat := 0xFFFF

/-- Modelled from the spec: absorb a buffer into the running CRC. -/
def crc16_genibus_update (buf : List Nat) (crc : Nat) : Nat :=
  buf.foldl crc16_genibus_update1 crc

/-- Modelled from the spec: the xor-out value is 0xFFFF. -/
def crc16_genibus_fini (crc : Nat) : Nat := (crc ^^^ 0xFFFF) % 65536

/-- The CRC-16/GENIBUS of a whole buffer (init, update, fini). -/
def crcOfList (l : List Nat) : Nat :=
  crc16_genibus_fini (crc16_genibus_update l crc16_genibus_init)

/-! ### Multi-byte integer helpers (`nabu_proto.h`, modelled from the spec) -/

/-- Modelled from the spec (§6): multi-byte integers inside the packet header
are big-endian; stores the low 16 bits of `v`, most significant byte first. -/
def nabu_set_uint16 (v : Nat) : List Nat := [v / 256 % 256, v % 256]

/-- Modelled from the spec (§6): stores the low 24 bits of `v`, most
significant byte first. -/
def nabu_set_uint24 (v : Nat) : List Nat := [v / 65536 % 256, v / 256 % 256, v % 256]

/-- Modelled from the spec (§4.2): the 2-byte CRC trailer is big-endian. -/
def nabu_set_crc (v : Nat) : List Nat := nabu_set_uint16 v

/-- Modelled from the spec (S2, S3, §6): the 16-bit channel code and the
24-bit image id received from the NABU are little-endian on the wire
(S3 decodes the request bytes FF FF 7F as image 0x7FFFFF). -/
def nabu_get_uint16 (b0 b1 : Nat) : Nat := b0 % 256 + 256 * (b1 % 256)

/-- Modelled from the spec (S3): little-endian 24-bit read, see
`nabu_get_uint16`. -/
def nabu_get_uint24 (b0 b1 b2 : Nat) : Nat :=
  b0 % 256 + 256 * (b1 % 256) + 65536 * (b2 % 256)

/-- Two's-complement reading of a 16-bit value, as in the C cast
`(int16_t)nabu_get_uint16(msg)`. -/
def toInt16 (v : Nat) : Int :=
  if v % 65536 < 32768 then ((v % 65536 : Nat) : Int) else ((v % 65536 : Nat) : Int) - 65536

/-! ### Packet header (`nabu_init_pkthdr`, modelled from the spec)

The spec (§4.2) fixes the header at `HEADER = 16` bytes with fields
image-id (24 bits), segment-number (8 bits), owner, tier, mystery, a type
byte carrying the last-segment flag, segment-number (16 bits) and offset
(16 bits), all multi-byte fields big-endian (§6).  The printed field widths
sum to 14, so the tier field is taken as 4 bytes to reach the stated
16-byte total.  The spec leaves the owner/tier/mystery constants and the
position of the last-segment flag open; the placeholder values below do not
affect any claim. -/

/-- Modelled from the spec: owner byte (value left open by the spec). -/
def nabu_pkthdr_owner : Nat := 0

/-- Modelled from the spec: tier bytes (values left open by the spec). -/
def nabu_pkthdr_tier : List Nat := [0, 0, 0, 0]

/-- Modelled from the spec: mystery bytes (values left open by the spec). -/
def nabu_pkthdr_mystery : List Nat := [0, 0]

/-- Modelled from the spec: the type byte carries the last-segment flag;
bit 4 is used here (the spec leaves the bit position open). -/
def nabu_pkthdr_type (last : Bool) : Nat := if last then 0x10 else 0x00

/-- Modelled from the spec (§4.2): build the 16-byte packet header. -/
def nabu_init_pkthdr (image segment off : Nat) (last : Bool) : List Nat :=
  nabu_set_uint24 image ++ [segment % 256] ++ [nabu_pkthdr_owner] ++
  nabu_pkthdr_tier ++ nabu_pkthdr_mystery ++ [nabu_pkthdr_type last] ++
  nabu_set_uint16 segment ++ nabu_set_uint16 off

/-! ### Packet field extractors (observation functions for the theorems) -/

/-- The 24-bit image id carried in a framed packet's header (bytes 0..2,
big-endian). -/
def pktImageId (pkt : List Nat) : Nat :=
  65536 * pkt.getD 0 0 + 256 * pkt.getD 1 0 + pkt.getD 2 0

/-- The low byte of the segment number (header byte 3). -/
def pktSegmentLsb (pkt : List Nat) : Nat := pkt.getD 3 0

/-- The last-segment flag of the header's type byte (byte 11). -/
def pktLastFlag (pkt : List Nat) : Bool := Nat.testBit (pkt.getD 11 0) 4

/-- The 16-bit segment number field (header bytes 12..13, big-endian). -/
def pktSegment16 (pkt : List Nat) : Nat := 256 * pkt.getD 12 0 + pkt.getD 13 0

/-- The 16-bit offset field (header bytes 14..15, big-endian). -/
def pktOffset16 (pkt : List Nat) : Nat := 256 * pkt.getD 14 0 + pkt.getD 15 0

/-- The packet ends in the big-endian CRC-16/GENIBUS of everything before. -/
def pktCrcOk (pkt : List Nat) : Prop :=
  pkt.drop (pkt.length - 2) = nabu_set_crc (crcOfList (pkt.take (pkt.length - 2)))

/-! ### Escape encoding (`adaptor_escape_packet`, src/nabud/adaptor.c:96) -/

/-- `adaptor_escape_packet`: copy the buffer into the connection's pktbuf,
emitting any byte equal to `NABU_MSG_ESCAPE` twice.  The returned list is the
resulting pktbuf contents; its length is the resulting pktlen. -/
def adaptor_escape_packet : List Nat → List Nat
  | [] => []
  | b :: rest =>
      if b = NABU_MSG_ESCAPE then
        NABU_MSG_ESCAPE :: NABU_MSG_ESCAPE :: adaptor_escape_packet rest
      else
        b :: adaptor_escape_packet rest

/-- Collapse each doubled escape pair back to a single byte (the decoding
direction of the claim; not a function of the C source). -/
def nabu_unescape : List Nat → List Nat
  | [] => []
  | [b] => [b]
  | b :: b2 :: rest =>
      if b = NABU_MSG_ESCAPE then b :: nabu_unescape rest
      else b :: nabu_unescape (b2 :: rest)

/-- The per-byte expansion the spec describes (each escape byte doubled,
every other byte kept); used to state that the encoder emits the bytes in
order. -/
def escapeExpandByte (b : Nat) : List Nat :=
  if b = NABU_MSG_ESCAPE then [b, b] else [b]

/-! ### Images, channels and connections (data model) -/

/-- Channel type: raw image directory or pre-framed PAK directory. -/
inductive image_channel_type where
  | raw
  | pak
deriving DecidableEq, Repr

/-- Catalog entry for a set of images (spec §3 Channel). -/
structure image_channel where
  number : Int
  type : image_channel_type
  retronet_enabled : Bool
  default_file : Option String
deriving DecidableEq, Repr

/-- A loaded image (spec §3 Image); `length` in the C struct is the length of
`data`, so it is represented by `data.length`. -/
structure nabu_image where
  name : String
  data : List Nat
  number : Nat
  channel : Option image_channel
deriving DecidableEq, Repr

/-- The PAK test in `adaptor_send_image`:
`img->channel != NULL && img->channel->type == IMAGE_CHANNEL_PAK`. -/
def image_is_pak (img : nabu_image) : Bool :=
  match img.channel with
  | some ch => ch.type = image_channel_type.pak
  | none => false

/-- The mutable per-connection state relevant to the claims
(src/nabud/conn.c); image pointers are modelled by `Option Nat` identities. -/
structure nabu_connection where
  on_list : Bool
  enum_count : Nat
  file_root : Option String
  l_channel : Option image_channel
  l_selected_file : Option String
  l_last_image : Option Nat
  retronet_enabled : Bool
deriving DecidableEq, Repr

/-! ### Segment framing (`adaptor_send_pak`, `adaptor_send_image`) -/

/-- Outcome of `adaptor_send_pak` / `adaptor_send_image`: either an
UNAUTHORIZED byte was sent (no packet), or a framed packet was handed to
`adaptor_send_packet`; either way the C function returns the `Bool`. -/
inductive SendResult where
  | unauthorized (ret : Bool)
  | sent (pkt : List Nat) (ret : Bool)
deriving DecidableEq, Repr

/-- The boolean the C function returns. -/
def sendResultRet : SendResult → Bool
  | SendResult.unauthorized b => b
  | SendResult.sent _ b => b

/-- The packet handed to `adaptor_send_packet` (empty if none was sent). -/
def sendResultPacket : SendResult → List Nat
  | SendResult.unauthorized _ => []
  | SendResult.sent pkt _ => pkt

/-- Whether a packet was handed to `adaptor_send_packet`. -/
def sendResultIsSent : SendResult → Bool
  | SendResult.unauthorized _ => false
  | SendResult.sent _ _ => true

/-- `adaptor_send_pak` (src/nabud/adaptor.c:234): extract the segment slice
of a pre-framed PAK image, recompute the CRC over all but its final two
bytes, overwrite those two bytes with the CRC, and send the slice.
Allocation failure is not modelled (lists always allocate). -/
def adaptor_send_pak (image segment : Nat) (img : nabu_image) : SendResult :=
  let off := segment * NABU_TOTALPAYLOADSIZE + (2 * segment + 2)
  if off ≥ img.data.length then SendResult.unauthorized false
  else
    let len := if off + NABU_TOTALPAYLOADSIZE ≥ img.data.length
               then img.data.length - off else NABU_TOTALPAYLOADSIZE
    let last := decide (off + NABU_TOTALPAYLOADSIZE ≥ img.data.length)
    if len < NABU_HEADERSIZE + NABU_FOOTERSIZE then SendResult.unauthorized last
    else
      let slice := (img.data.drop off).take len
      let crc := crc16_genibus_fini (crc16_genibus_update (slice.take (len - 2))
                   crc16_genibus_init)
      SendResult.sent (slice.take (len - 2) ++ nabu_set_crc crc) last

/-- `adaptor_send_image` (src/nabud/adaptor.c:290): PAK images are delegated
to `adaptor_send_pak`; otherwise wrap the requested region in a header,
payload and CRC trailer.  Allocation failure is not modelled. -/
def adaptor_send_image (image segment : Nat) (img : nabu_image) : SendResult :=
  if image_is_pak img then adaptor_send_pak image segment img
  else
    let off := segment * NABU_MAXPAYLOADSIZE
    if off ≥ img.data.length then SendResult.unauthorized false
    else
      let len := if off + NABU_MAXPAYLOADSIZE ≥ img.data.length
                 then img.data.length - off else NABU_MAXPAYLOADSIZE
      let last := decide (off + NABU_MAXPAYLOADSIZE ≥ img.data.length)
      let body := nabu_init_pkthdr image segment off last ++ (img.data.drop off).take len
      let crc := crc16_genibus_fini (crc16_genibus_update body crc16_genibus_init)
      SendResult.sent (body ++ nabu_set_crc crc) last

/-! ### Time packet (`adaptor_send_time`, src/nabud/adaptor.c:357) -/

/-- The fields of `struct tm` that `adaptor_send_time` reads. -/
structure nabu_time_tm where
  tm_wday : Nat
  tm_mon : Nat
  tm_mday : Nat
  tm_hour : Nat
  tm_min : Nat
  tm_sec : Nat
deriving DecidableEq, Repr

/-- The bytes of `struct nabu_time` as filled in by `adaptor_send_time`
(fields are `uint8_t`, hence the `% 256`); the struct layout is modelled
from the spec (§4.8, S3). -/
def nabu_time_bytes (tm : nabu_time_tm) : List Nat :=
  [0x02, 0x02, (tm.tm_wday + 1) % 256, 84, (tm.tm_mon + 1) % 256,
   tm.tm_mday % 256, tm.tm_hour % 256, tm.tm_min % 256, tm.tm_sec % 256]

/-- The synthetic raw image wrapping the time record (no channel). -/
def time_image (tm : nabu_time_tm) : nabu_image :=
  { name := "TimeImage", data := nabu_time_bytes tm,
    number := NABU_IMAGE_TIME, channel := none }

/-- The all-zero `struct tm` produced by `memset` when `time(NULL)` fails. -/
def nabu_tm_zero : nabu_time_tm := ⟨0, 0, 0, 0, 0, 0⟩

/-- `adaptor_send_time`: `none` models a failed system clock. -/
def adaptor_send_time (now : Option nabu_time_tm) : SendResult :=
  let tm := match now with
            | none => nabu_tm_zero
            | some t => t
  adaptor_send_image NABU_IMAGE_TIME 0 (time_image tm)

/-! ### Classic message dispatch (src/nabud/adaptor.c:626) -/

/-- The six handlers installed in `adaptor_msg_types`. -/
inductive ClassicHandler where
  | reset
  | mystery
  | get_status
  | start_up
  | packet_request
  | change_channel
deriving DecidableEq, Repr

/-- `HANDLER_INDEX(v) = v - NABU_MSG_CLASSIC_FIRST`. -/
def HANDLER_INDEX (v : Nat) : Nat := v - NABU_MSG_CLASSIC_FIRST

/-- The static handler table: the six `HANDLER_ENTRY` designated initializers
occupy indices 0..5 (the classic opcodes form a contiguous block starting at
`NABU_MSG_CLASSIC_FIRST`, spec §9(b)); an entry's `handler` member may in
principle be NULL, hence `Option`. -/
def adaptor_msg_types : List (Option ClassicHandler) :=
  [some ClassicHandler.reset, some ClassicHandler.mystery,
   some ClassicHandler.get_status, some ClassicHandler.start_up,
   some ClassicHandler.packet_request, some ClassicHandler.change_channel]

/-- `adaptor_msg_type_count = sizeof(table) / sizeof(table[0])`. -/
def adaptor_msg_type_count : Nat := adaptor_msg_types.length

/-- Observable outcome of `adaptor_msg_classic`: not a classic opcode
(returns false); logged as unknown (returns false); an out-of-bounds read of
the handler table (undefined behavior in C); or a handler invocation
(returns true). -/
inductive ClassicResult where
  | notClassic
  | unknownMsg
  | oobRead
  | handled (h : ClassicHandler)
deriving DecidableEq, Repr

/-- `adaptor_msg_classic` (src/nabud/adaptor.c:651): range check, then the
bound check `idx > adaptor_msg_type_count ||
adaptor_msg_types[idx].handler == NULL` (note `>`), then dispatch.  Reading
`adaptor_msg_types[idx]` with `idx` outside 0..5 is the `oobRead` outcome. -/
def adaptor_msg_classic (msg : Nat) : ClassicResult :=
  if NABU_MSG_IS_CLASSIC msg = false then ClassicResult.notClassic
  else if HANDLER_INDEX msg > adaptor_msg_type_count then ClassicResult.unknownMsg
  else
    match adaptor_msg_types.get? (HANDLER_INDEX msg) with
    | none => ClassicResult.oobRead
    | some none => ClassicResult.unknownMsg
    | some (some h) => ClassicResult.handled h

/-! ### Request handlers with a received body (src/nabud/adaptor.c:537, 596)

A handler's externally visible behavior is a list of events (bytes or calls
it issues, in order) plus whether it set the connection state to
`CONN_STATE_ABORTED`.  The body argument is `none` when `conn_recv` fails. -/

/-- Observable events of a classic request handler. -/
inductive PREvent where
  | ack
  | confirmed
  | unauthorized
  | timePacket
  | loadCall (id : Nat)
  | packetSent (pkt : List Nat)
  | unloadImg (last : Bool)
  | chanSelect (code : Int)
deriving DecidableEq, Repr

/-- What a handler did: its event trace, and whether it called
`conn_set_state(conn, CONN_STATE_ABORTED)`. -/
structure HandlerOut where
  events : List PREvent
  aborted : Bool
deriving DecidableEq, Repr

/-- The events `adaptor_send_image` contributes to the handler trace. -/
def sendEvents : SendResult → List PREvent
  | SendResult.unauthorized _ => [PREvent.unauthorized]
  | SendResult.sent pkt _ => [PREvent.packetSent pkt]

/-- `adaptor_msg_packet_request` (src/nabud/adaptor.c:537): ACK; receive the
4-byte body (failure aborts the connection before CONFIRMED); CONFIRMED;
time-image requests are answered directly (segment 0 with the time packet,
any other segment with UNAUTHORIZED); otherwise `image_load` — modelled by
the oracle `load` — is consulted, and on success the framed segment is sent
and the image unloaded with the `last` flag returned by
`adaptor_send_image`. -/
def adaptor_msg_packet_request (body : Option (List Nat))
    (load : Nat → Option nabu_image) : HandlerOut :=
  match body with
  | none => { events := [PREvent.ack], aborted := true }
  | some msg =>
      let segment := msg.getD 0 0
      let image := nabu_get_uint24 (msg.getD 1 0) (msg.getD 2 0) (msg.getD 3 0)
      if image = NABU_IMAGE_TIME then
        if segment = 0 then
          { events := [PREvent.ack, PREvent.confirmed, PREvent.timePacket],
            aborted := false }
        else
          { events := [PREvent.ack, PREvent.confirmed, PREvent.unauthorized],
            aborted := false }
      else
        match load image with
        | none =>
            { events := [PREvent.ack, PREvent.confirmed, PREvent.loadCall image,
                         PREvent.unauthorized],
              aborted := false }
        | some img =>
            let r := adaptor_send_image image segment img
            { events := [PREvent.ack, PREvent.confirmed, PREvent.loadCall image] ++
                        sendEvents r ++ [PREvent.unloadImg (sendResultRet r)],
              aborted := false }

/-- `adaptor_msg_change_channel` (src/nabud/adaptor.c:596): ACK; receive the
2-byte body (failure aborts the connection before CONFIRMED); select the
little-endian signed channel code; CONFIRMED. -/
def adaptor_msg_change_channel (body : Option (List Nat)) : HandlerOut :=
  match body with
  | none => { events := [PREvent.ack], aborted := true }
  | some msg =>
      { events := [PREvent.ack,
                   PREvent.chanSelect (toInt16 (nabu_get_uint16 (msg.getD 0 0) (msg.getD 1 0))),
                   PREvent.confirmed],
        aborted := false }

/-! ### Event loop reaction to a failed receive (src/nabud/adaptor.c:684) -/

/-- Connection state as far as the event loop observes it.  Modelled from the
spec (§4.1, §7): `conn_check_state` and `CONN_STATE_ABORTED` are declared
outside `src/`; the endpoint is healthy unless aborted. -/
inductive ConnState where
  | ok
  | aborted
deriving DecidableEq, Repr

/-- Modelled from the spec (§4.1): `check_state() → healthy | aborted`. -/
def conn_check_state (st : ConnState) : Bool := st ≠ ConnState.aborted

/-- What one turn of the event loop does next. -/
inductive LoopAct where
  | exitLoop
  | retryLoop
  | dispatch (b : Nat)
deriving DecidableEq, Repr

/-- One turn of `adaptor_event_loop` (src/nabud/adaptor.c:690): a failed
`conn_recv_byte` breaks out of the loop when `conn_check_state` fails and
otherwise continues it; a received byte is dispatched. -/
def adaptor_event_loop_step (st : ConnState) (rcv : Option Nat) : LoopAct :=
  match rcv with
  | none => if conn_check_state st then LoopAct.retryLoop else LoopAct.exitLoop
  | some b => LoopAct.dispatch b

/-! ### Connection-local state operations (src/nabud/conn.c) -/

/-- `conn_set_last_image_if` (src/nabud/conn.c:574): swap in `img` only when
the current last image equals `mtch`; returns the old value on a match and
NULL otherwise.  The pair is (returned pointer, updated connection). -/
def conn_set_last_image_if (conn : nabu_connection) (mtch img : Option Nat) :
    Option Nat × nabu_connection :=
  if conn.l_last_image = mtch then
    (conn.l_last_image, { conn with l_last_image := img })
  else
    (none, conn)

/-- `conn_set_channel` (src/nabud/conn.c:612): install the channel, take over
its retronet flag, clear the selected file.  The second component is the old
selected-file string, freed by the C code after dropping the mutex. -/
def conn_set_channel (conn : nabu_connection) (chan : image_channel) :
    nabu_connection × Option String :=
  ({ conn with
       l_channel := some chan,
       retronet_enabled := chan.retronet_enabled,
       l_selected_file := none },
   conn.l_selected_file)

/-- `conn_get_selected_file_logic` (src/nabud/conn.c:638): the selected file,
falling back to the selected channel's default file. -/
def conn_get_selected_file_logic (conn : nabu_connection) : Option String :=
  match conn.l_selected_file with
  | some f => some f
  | none =>
      match conn.l_channel with
      | some ch => ch.default_file
      | none => none

/-! ### Connection registry (src/nabud/conn.c:66-129)

One `conn_remove(r)` caller and one `conn_enumerate(fn, ·)` caller
interleave over the registry.  Each region executed under `conn_list_mutex`
in the C code is one atomic step of the relation; the condition-variable
wait in `conn_remove` is the guard `cnt r = 0` on the unlink step.
Connections are identified by `Nat`; `cnt c` is `c`'s `enum_count`, and
membership in `regList` is `on_list`. -/

/-- Program counter of the enumerating thread. -/
inductive EnumPc where
  | start
  | inCb (cur : Nat)
  | done (rv : Bool)
deriving DecidableEq, Repr

/-- Program counter of the removing thread. -/
inductive RemPc where
  | pending
  | finished
deriving DecidableEq, Repr

/-- Shared registry state plus both thread states. -/
structure RegSys where
  regList : List Nat
  cnt : Nat → Nat
  epc : EnumPc
  rpc : RemPc

/-- Point update of an `enum_count` map. -/
def fupd (f : Nat → Nat) (k v : Nat) : Nat → Nat :=
  fun x => if x = k then v else f x

/-- Increment a connection's `enum_count`. -/
def bump (f : Nat → Nat) (k : Nat) : Nat → Nat := fupd f k (f k + 1)

/-- Decrement a connection's `enum_count`. -/
def drop1 (f : Nat → Nat) (k : Nat) : Nat → Nat := fupd f k (f k - 1)

/-- `TAILQ_NEXT`: the registry entry following `cur`. -/
def listSucc : List Nat → Nat → Option Nat
  | [], _ => none
  | _ :: [], _ => none
  | a :: b :: rest, cur => if a = cur then some b else listSucc (b :: rest) cur

/-- The labelled interleaving of `conn_enumerate` (callback results given by
`fn`) and `conn_remove` of connection `r`.  Enumerator steps: begin on an
empty list; take the list lock, borrow the first connection and drop the
lock; after the callback, retake the lock, release the borrow, broadcast and
either stop (callback returned false), advance to the next connection, or
finish.  Remover step: `conn_remove` unlinks only once `enum_count` is zero
(the condition-variable wait). -/
inductive RegStep (fn : Nat → Bool) (r : Nat) : RegSys → RegSys → Prop where
  | enumStartEmpty (s : RegSys) (h1 : s.epc = EnumPc.start) (h2 : s.regList = []) :
      RegStep fn r s { s with epc := EnumPc.done true }
  | enumBorrowFirst (s : RegSys) (c : Nat) (rest : List Nat)
      (h1 : s.epc = EnumPc.start) (h2 : s.regList = c :: rest) :
      RegStep fn r s { s with epc := EnumPc.inCb c, cnt := bump s.cnt c }
  | enumFinishFalse (s : RegSys) (c : Nat)
      (h1 : s.epc = EnumPc.inCb c) (h2 : fn c = false) :
      RegStep fn r s { s with epc := EnumPc.done false, cnt := drop1 s.cnt c }
  | enumFinishAdvance (s : RegSys) (c nxt : Nat)
      (h1 : s.epc = EnumPc.inCb c) (h2 : fn c = true)
      (h3 : listSucc s.regList c = some nxt) :
      RegStep fn r s { s with epc := EnumPc.inCb nxt, cnt := bump (drop1 s.cnt c) nxt }
  | enumFinishLast (s : RegSys) (c : Nat)
      (h1 : s.epc = EnumPc.inCb c) (h2 : fn c = true)
      (h3 : listSucc s.regList c = none) :
      RegStep fn r s { s with epc := EnumPc.done true, cnt := drop1 s.cnt c }
  | removerRemove (s : RegSys) (h1 : s.rpc = RemPc.pending) (h2 : s.cnt r = 0) :
      RegStep fn r s { s with regList := s.regList.erase r, rpc := RemPc.finished }

/-- Reachability under the interleaving. -/
def RegReach (fn : Nat → Bool) (r : Nat) : RegSys → RegSys → Prop :=
  Relation.ReflTransGen (RegStep fn r)

/-- Whether the enumerator currently holds a borrow of `c`. -/
def borrowedBy : EnumPc → Nat → Bool
  | EnumPc.inCb cur, c => cur = c
  | _, _ => false

/-- The registry invariant: no duplicate registry entries, `enum_count`
counts exactly the enumerator's in-flight borrow, and a borrowed connection
is on the list. -/
def RegInv (s : RegSys) : Prop :=
  s.regList.Nodup ∧
  (∀ c, s.cnt c = if borrowedBy s.epc c then 1 else 0) ∧
  (∀ cur, s.epc = EnumPc.inCb cur → cur ∈ s.regList)

/-! ### Claim statements (the behaviors the claims assert) -/

/-- The image id of a PACKET_REQUEST body: bytes 1..3, little-endian
(see `nabu_get_uint24`). -/
def reqImageId (msg : List Nat) : Nat :=
  nabu_get_uint24 (msg.getD 1 0) (msg.getD 2 0) (msg.getD 3 0)

/-- Non-PAK framing behavior of `adaptor_send_image` for one image and one
segment, as asserted by claim C2 with the offset field reduced mod 2^16
(the header's offset field is 16 bits wide). -/
def sendImageRawSpec (image s : Nat) (img : nabu_image) : Prop :=
  (s * NABU_MAXPAYLOADSIZE ≥ img.data.length →
      adaptor_send_image image s img = SendResult.unauthorized false) ∧
  (s * NABU_MAXPAYLOADSIZE < img.data.length →
      ∃ pkt : List Nat,
        adaptor_send_image image s img =
          SendResult.sent pkt (decide ((s + 1) * NABU_MAXPAYLOADSIZE ≥ img.data.length)) ∧
        pkt.length = NABU_HEADERSIZE +
          min NABU_MAXPAYLOADSIZE (img.data.length - s * NABU_MAXPAYLOADSIZE) +
          NABU_FOOTERSIZE ∧
        pkt.length ≤ NABU_MAXPACKETSIZE ∧
        pktImageId pkt = image % 16777216 ∧
        pktSegmentLsb pkt = s % 256 ∧
        pktSegment16 pkt = s ∧
        pktOffset16 pkt = s * NABU_MAXPAYLOADSIZE % 65536 ∧
        pktLastFlag pkt = decide ((s + 1) * NABU_MAXPAYLOADSIZE ≥ img.data.length) ∧
        (pkt.drop NABU_HEADERSIZE).take
            (min NABU_MAXPAYLOADSIZE (img.data.length - s * NABU_MAXPAYLOADSIZE)) =
          (img.data.drop (s * NABU_MAXPAYLOADSIZE)).take
            (min NABU_MAXPAYLOADSIZE (img.data.length - s * NABU_MAXPAYLOADSIZE)) ∧
        pktCrcOk pkt)

/-- PAK extraction behavior of `adaptor_send_pak` for one image and one
segment, as asserted by claim C3. -/
def sendPakSpec (image s : Nat) (img : nabu_image) : Prop :=
  (s * NABU_TOTALPAYLOADSIZE + (2 * s + 2) ≥ img.data.length →
      adaptor_send_pak image s img = SendResult.unauthorized false) ∧
  (s * NABU_TOTALPAYLOADSIZE + (2 * s + 2) < img.data.length →
      min NABU_TOTALPAYLOADSIZE (img.data.length - (s * NABU_TOTALPAYLOADSIZE + (2 * s + 2))) <
        NABU_HEADERSIZE + NABU_FOOTERSIZE →
      adaptor_send_pak image s img = SendResult.unauthorized true) ∧
  (s * NABU_TOTALPAYLOADSIZE + (2 * s + 2) < img.data.length →
      NABU_HEADERSIZE + NABU_FOOTERSIZE ≤
        min NABU_TOTALPAYLOADSIZE
          (img.data.length - (s * NABU_TOTALPAYLOADSIZE + (2 * s + 2))) →
      adaptor_send_pak image s img =
        SendResult.sent
          (((img.data.drop (s * NABU_TOTALPAYLOADSIZE + (2 * s + 2))).take
              (min NABU_TOTALPAYLOADSIZE
                (img.data.length - (s * NABU_TOTALPAYLOADSIZE + (2 * s + 2))))).take
            (min NABU_TOTALPAYLOADSIZE
                (img.data.length - (s * NABU_TOTALPAYLOADSIZE + (2 * s + 2))) - 2) ++
           nabu_set_crc (crcOfList
             (((img.data.drop (s * NABU_TOTALPAYLOADSIZE + (2 * s + 2))).take
                 (min NABU_TOTALPAYLOADSIZE
                   (img.data.length - (s * NABU_TOTALPAYLOADSIZE + (2 * s + 2))))).take
               (min NABU_TOTALPAYLOADSIZE
                   (img.data.length - (s * NABU_TOTALPAYLOADSIZE + (2 * s + 2))) - 2))))
          (decide (s * NABU_TOTALPAYLOADSIZE + (2 * s + 2) + NABU_TOTALPAYLOADSIZE ≥
            img.data.length)) ∧
      (sendResultPacket (adaptor_send_pak image s img)).length =
        min NABU_TOTALPAYLOADSIZE
          (img.data.length - (s * NABU_TOTALPAYLOADSIZE + (2 * s + 2)))) ∧
  (sendResultRet (adaptor_send_pak image s img) = true ↔
      s * NABU_TOTALPAYLOADSIZE + (2 * s + 2) < img.data.length ∧
      s * NABU_TOTALPAYLOADSIZE + (2 * s + 2) + NABU_TOTALPAYLOADSIZE ≥ img.data.length)

/-- PACKET_REQUEST dispatch behavior on a successfully received body, as
asserted by claim C5 amended: little-endian image id (per S3), the
time image answered directly (segment 0 with the time packet, other segments
with UNAUTHORIZED and no load), other ids loaded and either refused or
framed, sent and unloaded with the final-segment flag; `image_load` is never
consulted for the time image id. -/
def packetRequestSpec (msg : List Nat) (load : Nat → Option nabu_image) : Prop :=
  (adaptor_msg_packet_request (some msg) load).aborted = false ∧
  (reqImageId msg = NABU_IMAGE_TIME → msg.getD 0 0 = 0 →
      (adaptor_msg_packet_request (some msg) load).events =
        [PREvent.ack, PREvent.confirmed, PREvent.timePacket]) ∧
  (reqImageId msg = NABU_IMAGE_TIME → msg.getD 0 0 ≠ 0 →
      (adaptor_msg_packet_request (some msg) load).events =
        [PREvent.ack, PREvent.confirmed, PREvent.unauthorized]) ∧
  (reqImageId msg ≠ NABU_IMAGE_TIME → load (reqImageId msg) = none →
      (adaptor_msg_packet_request (some msg) load).events =
        [PREvent.ack, PREvent.confirmed, PREvent.loadCall (reqImageId msg),
         PREvent.unauthorized]) ∧
  (∀ img, reqImageId msg ≠ NABU_IMAGE_TIME → load (reqImageId msg) = some img →
      (adaptor_msg_packet_request (some msg) load).events =
        [PREvent.ack, PREvent.confirmed, PREvent.loadCall (reqImageId msg)] ++
        sendEvents (adaptor_send_image (reqImageId msg) (msg.getD 0 0) img) ++
        [PREvent.unloadImg
          (sendResultRet (adaptor_send_image (reqImageId msg) (msg.getD 0 0) img))]) ∧
  (∀ img, reqImageId msg ≠ NABU_IMAGE_TIME → load (reqImageId msg) = some img →
      image_is_pak img = false →
      msg.getD 0 0 * NABU_MAXPAYLOADSIZE < img.data.length →
      PREvent.unloadImg
          (decide ((msg.getD 0 0 + 1) * NABU_MAXPAYLOADSIZE ≥ img.data.length)) ∈
        (adaptor_msg_packet_request (some msg) load).events) ∧
  (∀ i, PREvent.loadCall i ∈ (adaptor_msg_packet_request (some msg) load).events →
      i ≠ NABU_IMAGE_TIME ∧ i = reqImageId msg)

/-- Time-packet behavior asserted by claim C6 for one local time `tm`:
segment 0 of the synthetic raw image "TimeImage" with id `NABU_IMAGE_TIME`,
last bit set, body [02 02 wday+1 84 mon+1 mday hour min sec], valid CRC
trailer; a failed clock behaves like the all-zero record. -/
def timePacketSpec (tm : nabu_time_tm) : Prop :=
  ∃ pkt : List Nat,
    adaptor_send_time (some tm) = SendResult.sent pkt true ∧
    pkt.length = 27 ∧
    pktImageId pkt = NABU_IMAGE_TIME ∧
    pktSegmentLsb pkt = 0 ∧
    pktSegment16 pkt = 0 ∧
    pktOffset16 pkt = 0 ∧
    pktLastFlag pkt = true ∧
    (pkt.drop NABU_HEADERSIZE).take 9 =
      [2, 2, tm.tm_wday + 1, 84, tm.tm_mon + 1, tm.tm_mday, tm.tm_hour,
       tm.tm_min, tm.tm_sec] ∧
    pktCrcOk pkt ∧
    (time_image tm).name = "TimeImage" ∧
    (time_image tm).number = NABU_IMAGE_TIME ∧
    adaptor_send_time none = adaptor_send_time (some nabu_tm_zero)

/-- Registry safety asserted by claim C9 for one step `s → s2` of a
reachable state `s`: a connection leaves the list only with `enum_count`
zero, a borrowed connection stays on the list across the step, and after a
false callback the enumerator's own step finishes with result false. -/
def regSafetySpec (fn : Nat → Bool) (s s2 : RegSys) : Prop :=
  (∀ c, c ∈ s.regList → c ∉ s2.regList → s.cnt c = 0) ∧
  (∀ cur, s.epc = EnumPc.inCb cur →
      0 < s.cnt cur ∧ cur ∈ s.regList ∧ cur ∈ s2.regList) ∧
  (∀ cur, s.epc = EnumPc.inCb cur → fn cur = false →
      s2.epc = EnumPc.done false ∨ s2.epc = s.epc)

/-! ### Concrete instances used by counterexamples and witnesses -/

/-- A quiescent connection. -/
def connQuiet : nabu_connection :=
  { on_list := true, enum_count := 0, file_root := none, l_channel := none,
    l_selected_file := none, l_last_image := none, retronet_enabled := false }

/-- A connection whose last image is number 2. -/
def connW7 : nabu_connection := { connQuiet with l_last_image := some 2 }

/-- A small raw image (no channel). -/
def imgRawW : nabu_image :=
  { name := "w", data := [1, 2, 3], number := 5, channel := none }

/-- A 20-byte image on a PAK channel. -/
def imgPakW : nabu_image :=
  { name := "p", data := List.range 20, number := 6,
    channel := some { number := 1, type := image_channel_type.pak,
                      retronet_enabled := false, default_file := none } }

/-- A raw image one byte longer than segment 67's starting offset
(67 · 991 = 66397), so that segment 67 is in range but its offset exceeds
16 bits. -/
def imgBig : nabu_image :=
  { name := "big", data := List.replicate 66398 0, number := 1, channel := none }

/-- A concrete local time (Tuesday 1984-01-03 12:34:56). -/
def tmW : nabu_time_tm := ⟨2, 0, 3, 12, 34, 56⟩

/-- An image-load oracle that always fails. -/
def loadNone : Nat → Option nabu_image := fun _ => none

/-- A registry with one connection, an idle enumerator and a pending
removal of connection 0. -/
def regInit0 : RegSys :=
  { regList := [0], cnt := fun _ => 0, epc := EnumPc.start, rpc := RemPc.pending }

/-- A callback that always continues. -/
def regFn0 : Nat → Bool := fun _ => true

/-- `regInit0` after the remover's unlink step. -/
def regRemoved0 : RegSys :=
  { regInit0 with regList := regInit0.regList.erase 0, rpc := RemPc.finished }

/-! ## Theorems -/

/-! ### Escape-encoding lemmas -/

theorem escape_length_ge (buf : List Nat) :
    buf.length ≤ (adaptor_escape_packet buf).length := by
  induction buf with
  | nil => simp [adaptor_escape_packet]
  | cons b rest ih =>
      by_cases hb : b = NABU_MSG_ESCAPE <;>
        simp [adaptor_escape_packet, hb] <;> omega

theorem escape_length_le (buf : List Nat) :
    (adaptor_escape_packet buf).length ≤ 2 * buf.length := by
  induction buf with
  | nil => simp [adaptor_escape_packet]
  | cons b rest ih =>
      by_cases hb : b = NABU_MSG_ESCAPE <;>
        simp [adaptor_escape_packet, hb] <;> omega

theorem escape_eq_flatMap (buf : List Nat) :
    adaptor_escape_packet buf = buf.flatMap escapeExpandByte := by
  induction buf with
  | nil => rfl
  | cons b rest ih =>
      by_cases hb : b = NABU_MSG_ESCAPE <;>
        simp [adaptor_escape_packet, escapeExpandByte, hb, ih]

theorem escape_eq_nil {buf : List Nat} (h : adaptor_escape_packet buf = []) :
    buf = [] := by
  cases buf with
  | nil => rfl
  | cons b rest =>
      by_cases hb : b = NABU_MSG_ESCAPE <;> simp [adaptor_escape_packet, hb] at h

theorem unescape_escape (buf : List Nat) :
    nabu_unescape (adaptor_escape_packet buf) = buf := by
  induction buf with
  | nil => rfl
  | cons b rest ih =>
      by_cases hb : b = NABU_MSG_ESCAPE
      · subst hb
        simp [adaptor_escape_packet, nabu_unescape, ih]
      · cases h : adaptor_escape_packet rest with
        | nil =>
            have hr := escape_eq_nil h
            subst hr
            simp [adaptor_escape_packet, hb, nabu_unescape]
        | cons c t =>
            calc nabu_unescape (adaptor_escape_packet (b :: rest))
                = nabu_unescape (b :: adaptor_escape_packet rest) := by
                  simp [adaptor_escape_packet, hb]
              _ = nabu_unescape (b :: c :: t) := by rw [h]
              _ = b :: nabu_unescape (c :: t) := by simp [nabu_unescape, hb]
              _ = b :: nabu_unescape (adaptor_escape_packet rest) := by rw [h]
              _ = b :: rest := by rw [ih]

/-- C4: the escape encoder copies every byte of the buffer in order, doubling
each `NABU_MSG_ESCAPE` byte and keeping every other byte single; the
resulting pktlen lies in [n, 2n]; collapsing the doubled escape pairs
recovers the input exactly. -/
theorem claim_C4_escape_roundtrip (buf : List Nat) :
    adaptor_escape_packet buf = buf.flatMap escapeExpandByte ∧
    buf.length ≤ (adaptor_escape_packet buf).length ∧
    (adaptor_escape_packet buf).length ≤ 2 * buf.length ∧
    nabu_unescape (adaptor_escape_packet buf) = buf :=
  ⟨escape_eq_flatMap buf, escape_length_ge buf, escape_length_le buf,
   unescape_escape buf⟩

/-- C1: contrary to the claim, the bound check of `adaptor_msg_classic` does
not reject the index equal to the table size: opcode 0x86 is classic, its
index equals `adaptor_msg_type_count` (6), and the dispatch reads
`adaptor_msg_types[6]`, one entry past the end of the table (an
out-of-bounds read); indices strictly greater than the count (0x87) and
in-table opcodes (0x85) behave as the claim says. -/
theorem claim_C1_classic_dispatch_oob :
    NABU_MSG_IS_CLASSIC 0x86 = true ∧
    HANDLER_INDEX 0x86 = adaptor_msg_type_count ∧
    adaptor_msg_classic 0x86 = ClassicResult.oobRead ∧
    adaptor_msg_classic 0x87 = ClassicResult.unknownMsg ∧
    adaptor_msg_classic 0x85 = ClassicResult.handled ClassicHandler.change_channel := by
  decide

/-- C10: when the fixed-length request body of PACKET_REQUEST (4 bytes) or
CHANGE_CHANNEL (2 bytes) fails to arrive after the opcode was acknowledged,
the handler sets the connection state to ABORTED and returns having sent
only the ACK (no CONFIRMED, no other reply); the event loop then exits on
its next failed receive (aborted state) whereas a failed idle-wait receive
on a healthy connection merely retries. -/
theorem claim_C10_body_loss_aborts :
    (∀ load : Nat → Option nabu_image,
        adaptor_msg_packet_request none load =
          { events := [PREvent.ack], aborted := true } ∧
        PREvent.confirmed ∉ (adaptor_msg_packet_request none load).events) ∧
    (adaptor_msg_change_channel none =
        { events := [PREvent.ack], aborted := true } ∧
      PREvent.confirmed ∉ (adaptor_msg_change_channel none).events) ∧
    adaptor_event_loop_step ConnState.aborted none = LoopAct.exitLoop ∧
    adaptor_event_loop_step ConnState.ok none = LoopAct.retryLoop := by
  refine ⟨fun load => ⟨rfl, ?_⟩, ⟨rfl, ?_⟩, rfl, rfl⟩ <;>
    simp [adaptor_msg_packet_request, adaptor_msg_change_channel]

/-- C7 counterexample: with a null last image, calling
`conn_set_last_image_if` with a null `match` returns null even though the
prior value equals `match`, so "returns non-null iff the prior value equals
match" fails as stated. -/
theorem claim_C7_cex :
    connQuiet.l_last_image = none ∧
    (conn_set_last_image_if connQuiet none (some 1)).1 = none :=
  ⟨rfl, rfl⟩

/-- C7 amended: when the prior value equals `match`, the prior value is
returned (null when both are null) and the field is set to the new image;
otherwise null is returned and the connection is unchanged; the returned
pointer is non-null iff the prior value equals a non-null `match`. -/
theorem claim_C7_set_last_image_if (conn : nabu_connection) (mtch img : Option Nat) :
    (conn.l_last_image = mtch →
        (conn_set_last_image_if conn mtch img).1 = conn.l_last_image ∧
        (conn_set_last_image_if conn mtch img).2 =
          { conn with l_last_image := img }) ∧
    (conn.l_last_image ≠ mtch →
        (conn_set_last_image_if conn mtch img).1 = none ∧
        (conn_set_last_image_if conn mtch img).2 = conn) ∧
    (mtch ≠ none →
        ((conn_set_last_image_if conn mtch img).1 ≠ none ↔
          conn.l_last_image = mtch)) := by
  by_cases h : conn.l_last_image = mtch
  · refine ⟨fun _ => ⟨?_, ?_⟩, fun hne => absurd h hne, fun hm => ?_⟩
    · simp [conn_set_last_image_if, h]
    · simp [conn_set_last_image_if, h]
    · simp [conn_set_last_image_if, h, hm]
  · refine ⟨fun he => absurd he h, fun _ => ⟨?_, ?_⟩, fun hm => ?_⟩
    · simp [conn_set_last_image_if, h]
    · simp [conn_set_last_image_if, h]
    · simp [conn_set_last_image_if, h]

/-- C7 witness: the amended theorem applied to a connection whose last image
is number 2 with a matching non-null `match` value. -/
theorem claim_C7_witness :
    (conn_set_last_image_if connW7 (some 2) none).1 = connW7.l_last_image ∧
    (conn_set_last_image_if connW7 (some 2) none).2 =
      { connW7 with l_last_image := none } :=
  (claim_C7_set_last_image_if connW7 (some 2) none).1 rfl

/-- C8: `conn_set_channel` installs the channel, takes its retronet flag,
clears the selected file and hands the old selected-file string out to be
freed outside the mutex; every other connection field is unchanged, and the
selection read back afterwards is the new channel's default file. -/
theorem claim_C8_set_channel (conn : nabu_connection) (chan : image_channel) :
    (conn_set_channel conn chan).1.l_channel = some chan ∧
    (conn_set_channel conn chan).1.retronet_enabled = chan.retronet_enabled ∧
    (conn_set_channel conn chan).1.l_selected_file = none ∧
    (conn_set_channel conn chan).2 = conn.l_selected_file ∧
    (conn_set_channel conn chan).1.l_last_image = conn.l_last_image ∧
    (conn_set_channel conn chan).1.on_list = conn.on_list ∧
    (conn_set_channel conn chan).1.enum_count = conn.enum_count ∧
    (conn_set_channel conn chan).1.file_root = conn.file_root ∧
    conn_get_selected_file_logic (conn_set_channel conn chan).1 =
      chan.default_file :=
  ⟨rfl, rfl, rfl, rfl, rfl, rfl, rfl, rfl, rfl⟩

/-! ### Packet-framing lemmas -/

theorem pkthdr_length (image s off : Nat) (last : Bool) :
    (nabu_init_pkthdr image s off last).length = 16 := rfl

theorem set_crc_length (v : Nat) : (nabu_set_crc v).length = 2 := rfl

theorem pkthdr_getD_0 (image s off : Nat) (last : Bool) :
    (nabu_init_pkthdr image s off last).getD 0 0 = image / 65536 % 256 := rfl

theorem pkthdr_getD_1 (image s off : Nat) (last : Bool) :
    (nabu_init_pkthdr image s off last).getD 1 0 = image / 256 % 256 := rfl

theorem pkthdr_getD_2 (image s off : Nat) (last : Bool) :
    (nabu_init_pkthdr image s off last).getD 2 0 = image % 256 := rfl

theorem pkthdr_getD_3 (image s off : Nat) (last : Bool) :
    (nabu_init_pkthdr image s off last).getD 3 0 = s % 256 := rfl

theorem pkthdr_getD_11 (image s off : Nat) (last : Bool) :
    (nabu_init_pkthdr image s off last).getD 11 0 = nabu_pkthdr_type last := rfl

theorem pkthdr_getD_12 (image s off : Nat) (last : Bool) :
    (nabu_init_pkthdr image s off last).getD 12 0 = s / 256 % 256 := rfl

theorem pkthdr_getD_13 (image s off : Nat) (last : Bool) :
    (nabu_init_pkthdr image s off last).getD 13 0 = s % 256 := rfl

theorem pkthdr_getD_14 (image s off : Nat) (last : Bool) :
    (nabu_init_pkthdr image s off last).getD 14 0 = off / 256 % 256 := rfl

theorem pkthdr_getD_15 (image s off : Nat) (last : Bool) :
    (nabu_init_pkthdr image s off last).getD 15 0 = off % 256 := rfl

/-- The observable header fields of a packet that starts with
`nabu_init_pkthdr`. -/
theorem pkt_fields (image s off : Nat) (last : Bool) (rest : List Nat) :
    pktImageId (nabu_init_pkthdr image s off last ++ rest) = image % 16777216 ∧
    pktSegmentLsb (nabu_init_pkthdr image s off last ++ rest) = s % 256 ∧
    pktSegment16 (nabu_init_pkthdr image s off last ++ rest) = s % 65536 ∧
    pktOffset16 (nabu_init_pkthdr image s off last ++ rest) = off % 65536 ∧
    pktLastFlag (nabu_init_pkthdr image s off last ++ rest) = last := by
  have hg : ∀ i : Nat, i < 16 →
      (nabu_init_pkthdr image s off last ++ rest).getD i 0 =
        (nabu_init_pkthdr image s off last).getD i 0 := by
    intro i hi
    exact List.getD_append _ _ _ _ (by rw [pkthdr_length]; exact hi)
  refine ⟨?_, ?_, ?_, ?_, ?_⟩
  · unfold pktImageId
    rw [hg 0 (by norm_num), hg 1 (by norm_num), hg 2 (by norm_num),
      pkthdr_getD_0, pkthdr_getD_1, pkthdr_getD_2]
    omega
  · unfold pktSegmentLsb
    rw [hg 3 (by norm_num), pkthdr_getD_3]
  · unfold pktSegment16
    rw [hg 12 (by norm_num), hg 13 (by norm_num), pkthdr_getD_12, pkthdr_getD_13]
    omega
  · unfold pktOffset16
    rw [hg 14 (by norm_num), hg 15 (by norm_num), pkthdr_getD_14, pkthdr_getD_15]
    omega
  · unfold pktLastFlag
    rw [hg 11 (by norm_num), pkthdr_getD_11]
    cases last <;> rfl

/-- The non-PAK path of `adaptor_send_image`, written out: in range, the
function frames header, payload and CRC trailer exactly as in the source. -/
theorem send_image_raw (image s : Nat) (img : nabu_image)
    (hp : image_is_pak img = false) (h : s * NABU_MAXPAYLOADSIZE < img.data.length) :
    adaptor_send_image image s img =
      SendResult.sent
        ((nabu_init_pkthdr image s (s * NABU_MAXPAYLOADSIZE)
            (decide (s * NABU_MAXPAYLOADSIZE + NABU_MAXPAYLOADSIZE ≥ img.data.length)) ++
          (img.data.drop (s * NABU_MAXPAYLOADSIZE)).take
            (if s * NABU_MAXPAYLOADSIZE + NABU_MAXPAYLOADSIZE ≥ img.data.length
             then img.data.length - s * NABU_MAXPAYLOADSIZE else NABU_MAXPAYLOADSIZE)) ++
         nabu_set_crc (crcOfList
           (nabu_init_pkthdr image s (s * NABU_MAXPAYLOADSIZE)
              (decide (s * NABU_MAXPAYLOADSIZE + NABU_MAXPAYLOADSIZE ≥ img.data.length)) ++
            (img.data.drop (s * NABU_MAXPAYLOADSIZE)).take
              (if s * NABU_MAXPAYLOADSIZE + NABU_MAXPAYLOADSIZE ≥ img.data.length
               then img.data.length - s * NABU_MAXPAYLOADSIZE else NABU_MAXPAYLOADSIZE))))
        (decide (s * NABU_MAXPAYLOADSIZE + NABU_MAXPAYLOADSIZE ≥ img.data.length)) := by
  unfold adaptor_send_image
  rw [hp]
  simp only [Bool.false_eq_true, if_false]
  rw [if_neg (not_le.mpr h)]
  rfl

/-- Shared shape facts about a framed packet `header ++ payload ++ crc`:
its length, the recovery of the payload, and the validity of the CRC
trailer. -/
theorem framed_packet_props (hdr payload crc2 : List Nat)
    (hh : hdr.length = 16) (hc : crc2.length = 2)
    (hcrc : crc2 = nabu_set_crc (crcOfList (hdr ++ payload))) :
    ((hdr ++ payload) ++ crc2).length = 16 + payload.length + 2 ∧
    (((hdr ++ payload) ++ crc2).drop 16).take payload.length = payload ∧
    pktCrcOk ((hdr ++ payload) ++ crc2) := by
  have hlen : ((hdr ++ payload) ++ crc2).length = 16 + payload.length + 2 := by
    simp only [List.length_append, hh, hc]
  refine ⟨hlen, ?_, ?_⟩
  · rw [List.append_assoc, show (16 : Nat) = hdr.length from hh.symm,
      List.drop_left, List.take_left]
  · unfold pktCrcOk
    rw [hlen]
    have h2 : 16 + payload.length + 2 - 2 = (hdr ++ payload).length := by
      simp only [List.length_append, hh]
      omega
    rw [h2, List.take_left, List.drop_left, hcrc]

/-- C2 counterexample: for the 66398-byte raw image `imgBig` and segment 67,
the packet is sent (offset 66397 is in range) but its 16-bit offset field
holds 861 = 66397 mod 2^16, not 66397 = 67 · MAXPAYLOAD, so the claim's
"offset field equal to s·991" is false as stated. -/
theorem claim_C2_cex :
    sendResultIsSent (adaptor_send_image 1 67 imgBig) = true ∧
    67 * NABU_MAXPAYLOADSIZE = 66397 ∧
    66397 < imgBig.data.length ∧
    pktOffset16 (sendResultPacket (adaptor_send_image 1 67 imgBig)) = 861 ∧
    (861 : Nat) ≠ 66397 := by
  have hbig : imgBig.data.length = 66398 := by
    show (List.replicate 66398 (0 : Nat)).length = 66398
    rw [List.length_replicate]
  have hp : image_is_pak imgBig = false := rfl
  have h : 67 * NABU_MAXPAYLOADSIZE < imgBig.data.length := by
    rw [hbig]
    norm_num [NABU_MAXPAYLOADSIZE]
  have heq := send_image_raw 1 67 imgBig hp h
  refine ⟨by rw [heq]; rfl, rfl, by rw [hbig]; norm_num, ?_, by norm_num⟩
  rw [heq]
  show pktOffset16 ((nabu_init_pkthdr 1 67 (67 * NABU_MAXPAYLOADSIZE) _ ++ _) ++ _) = 861
  rw [List.append_assoc, (pkt_fields 1 67 (67 * NABU_MAXPAYLOADSIZE) _ _).2.2.2.1]
  norm_num [NABU_MAXPAYLOADSIZE]

/-- C2 amended: non-PAK segment framing behaves as the claim states, except
that the header's 16-bit offset field carries `s·MAXPAYLOAD mod 2^16`. -/
theorem claim_C2_nonpak_framing (image s : Nat) (img : nabu_image)
    (hp : image_is_pak img = false) (hs : s < 65536) :
    sendImageRawSpec image s img := by
  constructor
  · intro hge
    unfold adaptor_send_image
    rw [hp]
    simp only [Bool.false_eq_true, if_false]
    rw [if_pos hge]
  · intro h
    have heq := send_image_raw image s img hp h
    have hsucc : s * NABU_MAXPAYLOADSIZE + NABU_MAXPAYLOADSIZE =
        (s + 1) * NABU_MAXPAYLOADSIZE := (Nat.succ_mul s NABU_MAXPAYLOADSIZE).symm
    rw [hsucc] at heq
    have hif : (if (s + 1) * NABU_MAXPAYLOADSIZE ≥ img.data.length
          then img.data.length - s * NABU_MAXPAYLOADSIZE else NABU_MAXPAYLOADSIZE) =
        min NABU_MAXPAYLOADSIZE (img.data.length - s * NABU_MAXPAYLOADSIZE) := by
      simp only [NABU_MAXPAYLOADSIZE] at h ⊢
      split <;> omega
    rw [hif] at heq
    have hprops := framed_packet_props
      (nabu_init_pkthdr image s (s * NABU_MAXPAYLOADSIZE)
        (decide ((s + 1) * NABU_MAXPAYLOADSIZE ≥ img.data.length)))
      ((img.data.drop (s * NABU_MAXPAYLOADSIZE)).take
        (min NABU_MAXPAYLOADSIZE (img.data.length - s * NABU_MAXPAYLOADSIZE)))
      (nabu_set_crc (crcOfList
        (nabu_init_pkthdr image s (s * NABU_MAXPAYLOADSIZE)
          (decide ((s + 1) * NABU_MAXPAYLOADSIZE ≥ img.data.length)) ++
         (img.data.drop (s * NABU_MAXPAYLOADSIZE)).take
           (min NABU_MAXPAYLOADSIZE (img.data.length - s * NABU_MAXPAYLOADSIZE)))))
      rfl rfl rfl
    have hPlen : ((img.data.drop (s * NABU_MAXPAYLOADSIZE)).take
        (min NABU_MAXPAYLOADSIZE (img.data.length - s * NABU_MAXPAYLOADSIZE))).length =
        min NABU_MAXPAYLOADSIZE (img.data.length - s * NABU_MAXPAYLOADSIZE) := by
      rw [List.length_take, List.length_drop]
      omega
    have hfields := pkt_fields image s (s * NABU_MAXPAYLOADSIZE)
      (decide ((s + 1) * NABU_MAXPAYLOADSIZE ≥ img.data.length))
      ((img.data.drop (s * NABU_MAXPAYLOADSIZE)).take
        (min NABU_MAXPAYLOADSIZE (img.data.length - s * NABU_MAXPAYLOADSIZE)) ++
       nabu_set_crc (crcOfList
        (nabu_init_pkthdr image s (s * NABU_MAXPAYLOADSIZE)
          (decide ((s + 1) * NABU_MAXPAYLOADSIZE ≥ img.data.length)) ++
         (img.data.drop (s * NABU_MAXPAYLOADSIZE)).take
           (min NABU_MAXPAYLOADSIZE (img.data.length - s * NABU_MAXPAYLOADSIZE)))))
    rw [hPlen] at hprops
    refine ⟨_, heq, ?_, ?_, ?_, ?_, ?_, ?_, ?_, ?_, hprops.2.2⟩
    · rw [hprops.1]
      simp only [NABU_HEADERSIZE, NABU_FOOTERSIZE]
    · rw [hprops.1]
      have hmle := Nat.min_le_left NABU_MAXPAYLOADSIZE
        (img.data.length - s * NABU_MAXPAYLOADSIZE)
      simp only [NABU_MAXPAYLOADSIZE, NABU_MAXPACKETSIZE] at hmle ⊢
      omega
    · rw [List.append_assoc]
      exact hfields.1
    · rw [List.append_assoc]
      exact hfields.2.1
    · rw [List.append_assoc, hfields.2.2.1]
      exact Nat.mod_eq_of_lt hs
    · rw [List.append_assoc]
      exact hfields.2.2.2.1
    · rw [List.append_assoc]
      exact hfields.2.2.2.2
    · simp only [NABU_HEADERSIZE]
      exact hprops.2.1

/-- C3: PAK segment extraction: offset formula `s·TOTAL + 2s + 2`,
out-of-range and too-short slices answered with UNAUTHORIZED, otherwise the
slice is sent with its final two bytes replaced by the recomputed CRC, and
the returned flag is true exactly for the final segment. -/
theorem claim_C3_pak_extraction (image s : Nat) (img : nabu_image)
    (hs : s < 65536) : sendPakSpec image s img := by
  refine ⟨?_, ?_, ?_, ?_⟩
  · intro hge
    unfold adaptor_send_pak
    rw [if_pos hge]
  · intro h hlt
    unfold adaptor_send_pak
    rw [if_neg (not_le.mpr h)]
    have hc2 : s * NABU_TOTALPAYLOADSIZE + (2 * s + 2) + NABU_TOTALPAYLOADSIZE ≥
        img.data.length := by
      have := Nat.min_le_left NABU_TOTALPAYLOADSIZE
        (img.data.length - (s * NABU_TOTALPAYLOADSIZE + (2 * s + 2)))
      simp only [NABU_TOTALPAYLOADSIZE, NABU_HEADERSIZE, NABU_FOOTERSIZE] at hlt this ⊢
      omega
    rw [if_pos hc2]
    have h18 : img.data.length - (s * NABU_TOTALPAYLOADSIZE + (2 * s + 2)) <
        NABU_HEADERSIZE + NABU_FOOTERSIZE := by
      simp only [NABU_TOTALPAYLOADSIZE, NABU_HEADERSIZE, NABU_FOOTERSIZE] at hlt hc2 ⊢
      omega
    rw [if_pos h18, decide_eq_true hc2]
  · intro h hge18
    unfold adaptor_send_pak
    rw [if_neg (not_le.mpr h)]
    have hif : (if s * NABU_TOTALPAYLOADSIZE + (2 * s + 2) + NABU_TOTALPAYLOADSIZE ≥
          img.data.length
        then img.data.length - (s * NABU_TOTALPAYLOADSIZE + (2 * s + 2))
        else NABU_TOTALPAYLOADSIZE) =
        min NABU_TOTALPAYLOADSIZE
          (img.data.length - (s * NABU_TOTALPAYLOADSIZE + (2 * s + 2))) := by
      simp only [NABU_TOTALPAYLOADSIZE] at h ⊢
      split <;> omega
    rw [hif, if_neg (not_lt.mpr hge18)]
    refine ⟨rfl, ?_⟩
    simp only [sendResultPacket, List.length_append, List.length_take,
      List.length_drop, set_crc_length]
    have hmr := Nat.min_le_right NABU_TOTALPAYLOADSIZE
      (img.data.length - (s * NABU_TOTALPAYLOADSIZE + (2 * s + 2)))
    simp only [NABU_TOTALPAYLOADSIZE, NABU_HEADERSIZE, NABU_FOOTERSIZE] at hmr hge18 ⊢
    omega
  · by_cases h : s * NABU_TOTALPAYLOADSIZE + (2 * s + 2) ≥ img.data.length
    · unfold adaptor_send_pak
      rw [if_pos h]
      simp only [sendResultRet, Bool.false_eq_true, false_iff, not_and]
      intro hlt
      omega
    · have hlt : s * NABU_TOTALPAYLOADSIZE + (2 * s + 2) < img.data.length :=
        not_le.mp h
      unfold adaptor_send_pak
      rw [if_neg h]
      split <;> dsimp only <;> split <;>
        simp only [sendResultRet, decide_eq_true_eq] <;>
        exact ⟨fun hc => ⟨hlt, hc⟩, fun hc => hc.2⟩

/-- C6: the time packet is sent as segment 0 of the synthetic raw image
"TimeImage" with id `NABU_IMAGE_TIME` and the last-segment bit set; its
9-byte body is [02 02 wday+1 84 mon+1 mday hour min sec] for the given local
time, the CRC-16/GENIBUS trailer verifies, and a failed system clock behaves
exactly like the all-zero time record. -/
theorem claim_C6_time_packet (tm : nabu_time_tm)
    (h1 : tm.tm_wday ≤ 6) (h2 : tm.tm_mon ≤ 11) (h3 : tm.tm_mday ≤ 31)
    (h4 : tm.tm_hour ≤ 23) (h5 : tm.tm_min ≤ 59) (h6 : tm.tm_sec ≤ 60) :
    timePacketSpec tm := by
  unfold timePacketSpec
  have hp : image_is_pak (time_image tm) = false := rfl
  have hlen9 : (time_image tm).data.length = 9 := rfl
  have h : 0 * NABU_MAXPAYLOADSIZE < (time_image tm).data.length := by
    rw [hlen9]
    norm_num
  have heq := send_image_raw NABU_IMAGE_TIME 0 (time_image tm) hp h
  have heq9 : adaptor_send_time (some tm) =
      SendResult.sent
        ((nabu_init_pkthdr NABU_IMAGE_TIME 0 0 true ++ nabu_time_bytes tm) ++
         nabu_set_crc (crcOfList
           (nabu_init_pkthdr NABU_IMAGE_TIME 0 0 true ++ nabu_time_bytes tm)))
        true := by
    show adaptor_send_image NABU_IMAGE_TIME 0 (time_image tm) = _
    rw [heq]
    rfl
  have hprops := framed_packet_props (nabu_init_pkthdr NABU_IMAGE_TIME 0 0 true)
    (nabu_time_bytes tm)
    (nabu_set_crc (crcOfList
      (nabu_init_pkthdr NABU_IMAGE_TIME 0 0 true ++ nabu_time_bytes tm)))
    rfl rfl rfl
  have hfields := pkt_fields NABU_IMAGE_TIME 0 0 true
    (nabu_time_bytes tm ++
     nabu_set_crc (crcOfList
       (nabu_init_pkthdr NABU_IMAGE_TIME 0 0 true ++ nabu_time_bytes tm)))
  have h9 : (nabu_time_bytes tm).length = 9 := rfl
  have hbytes : nabu_time_bytes tm =
      [2, 2, tm.tm_wday + 1, 84, tm.tm_mon + 1, tm.tm_mday, tm.tm_hour,
       tm.tm_min, tm.tm_sec] := by
    unfold nabu_time_bytes
    rw [Nat.mod_eq_of_lt (by omega), Nat.mod_eq_of_lt (by omega),
      Nat.mod_eq_of_lt (by omega), Nat.mod_eq_of_lt (by omega),
      Nat.mod_eq_of_lt (by omega), Nat.mod_eq_of_lt (by omega)]
  refine ⟨_, heq9, ?_, ?_, ?_, ?_, ?_, ?_, ?_, hprops.2.2, rfl, rfl, rfl⟩
  · rw [hprops.1, h9]
  · rw [List.append_assoc, hfields.1]
    rfl
  · rw [List.append_assoc, hfields.2.1]
  · rw [List.append_assoc, hfields.2.2.1]
  · rw [List.append_assoc, hfields.2.2.2.1]
  · rw [List.append_assoc]
    exact hfields.2.2.2.2
  · simp only [NABU_HEADERSIZE]
    rw [← h9, hprops.2.1, hbytes]

/-! ### PACKET_REQUEST dispatch lemmas -/

theorem sendResultRet_raw (image s : Nat) (img : nabu_image)
    (hp : image_is_pak img = false)
    (h : s * NABU_MAXPAYLOADSIZE < img.data.length) :
    sendResultRet (adaptor_send_image image s img) =
      decide ((s + 1) * NABU_MAXPAYLOADSIZE ≥ img.data.length) := by
  rw [send_image_raw image s img hp h]
  simp only [sendResultRet]
  rw [Nat.succ_mul]

theorem loadCall_not_sendEvents (r : SendResult) (i : Nat) :
    PREvent.loadCall i ∉ sendEvents r := by
  cases r <;> simp [sendEvents]

/-- C5 counterexample: on the received body 01 FF FF 7F the code decodes the
little-endian image id 0x7FFFFF (the time image) with segment 1 and answers
UNAUTHORIZED without calling `image_load` and without sending the time
packet, contradicting the claim's "else it calls image_load" (under the
claim's big-endian reading the id would be 0xFFFF7F ≠ TIME, so the claim
demands a load call here; under the little-endian reading the claim's else
branch demands one too). -/
theorem claim_C5_cex :
    adaptor_msg_packet_request (some [1, 255, 255, 127]) loadNone =
      { events := [PREvent.ack, PREvent.confirmed, PREvent.unauthorized],
        aborted := false } ∧
    nabu_get_uint24 255 255 127 = NABU_IMAGE_TIME ∧
    PREvent.loadCall 16777087 ∉
      (adaptor_msg_packet_request (some [1, 255, 255, 127]) loadNone).events ∧
    PREvent.timePacket ∉
      (adaptor_msg_packet_request (some [1, 255, 255, 127]) loadNone).events := by
  refine ⟨rfl, rfl, by decide, by decide⟩

/-- C5 amended: on a successfully received 4-byte body, the handler replies
ACK then CONFIRMED and dispatches on the little-endian image id: the time
image is answered directly (segment 0 with the time packet, other segments
with UNAUTHORIZED, never loading), other ids are loaded and either refused
with UNAUTHORIZED or framed, sent and unloaded with the final-segment flag;
`image_load` is never consulted for the time image id. -/
theorem claim_C5_packet_request (msg : List Nat) (load : Nat → Option nabu_image)
    (hlen : msg.length = 4) : packetRequestSpec msg load := by
  have hmaster : adaptor_msg_packet_request (some msg) load =
      (if reqImageId msg = NABU_IMAGE_TIME then
        (if msg.getD 0 0 = 0 then
          { events := [PREvent.ack, PREvent.confirmed, PREvent.timePacket],
            aborted := false }
        else
          { events := [PREvent.ack, PREvent.confirmed, PREvent.unauthorized],
            aborted := false })
      else
        (match load (reqImageId msg) with
         | none =>
            { events := [PREvent.ack, PREvent.confirmed,
                PREvent.loadCall (reqImageId msg), PREvent.unauthorized],
              aborted := false }
         | some img =>
            { events := [PREvent.ack, PREvent.confirmed,
                PREvent.loadCall (reqImageId msg)] ++
                sendEvents (adaptor_send_image (reqImageId msg) (msg.getD 0 0) img) ++
                [PREvent.unloadImg (sendResultRet
                  (adaptor_send_image (reqImageId msg) (msg.getD 0 0) img))],
              aborted := false })) := rfl
  have habort : (adaptor_msg_packet_request (some msg) load).aborted = false := by
    rw [hmaster]
    by_cases ht : reqImageId msg = NABU_IMAGE_TIME
    · rw [if_pos ht]
      by_cases hseg : msg.getD 0 0 = 0
      · rw [if_pos hseg]
      · rw [if_neg hseg]
    · rw [if_neg ht]
      cases load (reqImageId msg) with
      | none => rfl
      | some img => rfl
  unfold packetRequestSpec
  refine ⟨habort, ?_, ?_, ?_, ?_, ?_, ?_⟩
  · intro ht hseg
    rw [hmaster, if_pos ht, if_pos hseg]
  · intro ht hseg
    rw [hmaster, if_pos ht, if_neg hseg]
  · intro ht hl
    rw [hmaster, if_neg ht, hl]
  · intro img ht hl
    rw [hmaster, if_neg ht, hl]
  · intro img ht hl hpak hrange
    rw [hmaster, if_neg ht, hl,
      ← sendResultRet_raw (reqImageId msg) (msg.getD 0 0) img hpak hrange]
    simp
  · intro i hi
    rw [hmaster] at hi
    by_cases ht : reqImageId msg = NABU_IMAGE_TIME
    · rw [if_pos ht] at hi
      by_cases hseg : msg.getD 0 0 = 0
      · rw [if_pos hseg] at hi
        simp at hi
      · rw [if_neg hseg] at hi
        simp at hi
    · rw [if_neg ht] at hi
      cases hload : load (reqImageId msg) with
      | none =>
          rw [hload] at hi
          simp at hi
          exact ⟨fun hEq => ht (hi.symm.trans hEq), hi⟩
      | some img =>
          rw [hload] at hi
          rcases List.mem_append.mp hi with h1 | h1
          · rcases List.mem_append.mp h1 with h2 | h2
            · simp at h2
              exact ⟨fun hEq => ht (h2.symm.trans hEq), h2⟩
            · exact absurd h2 (loadCall_not_sendEvents _ _)
          · simp at h1

/-! ### Registry lemmas -/

theorem listSucc_mem : ∀ (l : List Nat) (a b : Nat), listSucc l a = some b → b ∈ l := by
  intro l
  induction l with
  | nil =>
      intro a b h
      simp [listSucc] at h
  | cons x rest ih =>
      intro a b h
      cases rest with
      | nil => simp [listSucc] at h
      | cons y rest2 =>
          by_cases hx : x = a
          · simp only [listSucc, if_pos hx, Option.some.injEq] at h
            subst h
            exact List.mem_cons_of_mem x (List.mem_cons_self y rest2)
          · simp only [listSucc, if_neg hx] at h
            exact List.mem_cons_of_mem x (ih a b h)

/-- One step of the registry interleaving preserves the invariant. -/
theorem regInv_step {fn : Nat → Bool} {r : Nat} {s s2 : RegSys}
    (hinv : RegInv s) (hst : RegStep fn r s s2) : RegInv s2 := by
  obtain ⟨hnd, hcnt, hmem⟩ := hinv
  obtain ⟨L, cnt, epc, rpc⟩ := s
  cases hst with
  | enumStartEmpty h1 h2 =>
      refine ⟨hnd, ?_, ?_⟩
      · intro c
        have h0 := hcnt c
        rw [h1] at h0
        simpa [borrowedBy] using h0
      · intro cur hcur
        exact absurd hcur (by simp)
  | enumBorrowFirst c rest h1 h2 =>
      have hall : ∀ x, cnt x = 0 := by
        intro x
        have h0 := hcnt x
        rw [h1] at h0
        simpa [borrowedBy] using h0
      refine ⟨hnd, ?_, ?_⟩
      · intro x
        simp only [bump, fupd, borrowedBy]
        by_cases hx : x = c
        · rw [if_pos hx, hall c, hx]
          simp
        · rw [if_neg hx, hall x]
          simp [Ne.symm hx]
      · intro cur hcur
        simp only [EnumPc.inCb.injEq] at hcur
        subst hcur
        rw [h2]
        exact List.mem_cons_self c rest
  | enumFinishFalse c h1 h2 =>
      have hcc : cnt c = 1 := by
        have h0 := hcnt c
        rw [h1] at h0
        simpa [borrowedBy] using h0
      have hoth : ∀ x, x ≠ c → cnt x = 0 := by
        intro x hx
        have h0 := hcnt x
        rw [h1] at h0
        simpa [borrowedBy, Ne.symm hx] using h0
      refine ⟨hnd, ?_, ?_⟩
      · intro x
        simp only [drop1, fupd, borrowedBy]
        by_cases hx : x = c
        · rw [if_pos hx, hcc]
          simp
        · rw [if_neg hx, hoth x hx]
          simp
      · intro cur hcur
        exact absurd hcur (by simp)
  | enumFinishAdvance c nxt h1 h2 h3 =>
      have hcc : cnt c = 1 := by
        have h0 := hcnt c
        rw [h1] at h0
        simpa [borrowedBy] using h0
      have hoth : ∀ x, x ≠ c → cnt x = 0 := by
        intro x hx
        have h0 := hcnt x
        rw [h1] at h0
        simpa [borrowedBy, Ne.symm hx] using h0
      refine ⟨hnd, ?_, ?_⟩
      · intro x
        simp only [bump, drop1, fupd, borrowedBy]
        by_cases hxn : x = nxt
        · rw [if_pos hxn]
          by_cases hnc : nxt = c
          · rw [if_pos hnc, hcc]
            simp [hxn.symm]
          · rw [if_neg hnc, hoth nxt hnc]
            simp [hxn.symm]
        · rw [if_neg hxn]
          by_cases hxc : x = c
          · rw [if_pos hxc, hcc]
            simp [Ne.symm hxn]
          · rw [if_neg hxc, hoth x hxc]
            simp [Ne.symm hxn]
      · intro cur hcur
        simp only [EnumPc.inCb.injEq] at hcur
        subst hcur
        exact listSucc_mem L c nxt h3
  | enumFinishLast c h1 h2 h3 =>
      have hcc : cnt c = 1 := by
        have h0 := hcnt c
        rw [h1] at h0
        simpa [borrowedBy] using h0
      have hoth : ∀ x, x ≠ c → cnt x = 0 := by
        intro x hx
        have h0 := hcnt x
        rw [h1] at h0
        simpa [borrowedBy, Ne.symm hx] using h0
      refine ⟨hnd, ?_, ?_⟩
      · intro x
        simp only [drop1, fupd, borrowedBy]
        by_cases hx : x = c
        · rw [if_pos hx, hcc]
          simp
        · rw [if_neg hx, hoth x hx]
          simp
      · intro cur hcur
        exact absurd hcur (by simp)
  | removerRemove h1 h2 =>
      refine ⟨hnd.erase r, ?_, ?_⟩
      · intro x
        exact hcnt x
      · intro cur hcur
        have hc := hmem cur hcur
        have hcnt1 : cnt cur = 1 := by
          have h0 := hcnt cur
          rw [hcur] at h0
          simpa [borrowedBy] using h0
        have h2x : cnt r = 0 := h2
        have hne : cur ≠ r := by
          intro he
          rw [he] at hcnt1
          rw [hcnt1] at h2x
          exact Nat.one_ne_zero h2x
        exact (List.mem_erase_of_ne hne).mpr hc

/-- The invariant holds in every reachable state. -/
theorem regInv_reach {fn : Nat → Bool} {r : Nat} {s0 s : RegSys}
    (h0 : RegInv s0) (hr : RegReach fn r s0 s) : RegInv s := by
  induction hr with
  | refl => exact h0
  | tail _ hstep ih => exact regInv_step ih hstep

/-- C9: in every reachable interleaving of one `conn_enumerate` and one
`conn_remove`, a connection is only ever unlinked with `enum_count` zero
(the remover's condition-variable wait), the connection whose callback is in
flight stays on the registry list across any step, and once a callback
returns false the enumerator's next step finishes with result false. -/
theorem claim_C9_registry_borrow (fn : Nat → Bool) (r : Nat) (s0 s s2 : RegSys)
    (h0 : RegInv s0) (hr : RegReach fn r s0 s) (hst : RegStep fn r s s2) :
    regSafetySpec fn s s2 := by
  obtain ⟨hnd, hcnt, hmem⟩ := regInv_reach h0 hr
  refine ⟨?_, ?_, ?_⟩
  · intro c hcs hcs2
    cases hst with
    | enumStartEmpty h1 h2 => exact absurd hcs hcs2
    | enumBorrowFirst c0 rest h1 h2 => exact absurd hcs hcs2
    | enumFinishFalse c0 h1 h2 => exact absurd hcs hcs2
    | enumFinishAdvance c0 nxt h1 h2 h3 => exact absurd hcs hcs2
    | enumFinishLast c0 h1 h2 h3 => exact absurd hcs hcs2
    | removerRemove h1 h2 =>
        by_cases hcr : c = r
        · subst hcr
          exact h2
        · exact absurd ((List.mem_erase_of_ne hcr).mpr hcs) hcs2
  · intro cur hcur
    have hcnt1 : s.cnt cur = 1 := by
      have := hcnt cur
      rw [hcur] at this
      simpa [borrowedBy] using this
    refine ⟨by omega, hmem cur hcur, ?_⟩
    cases hst with
    | enumStartEmpty h1 h2 => exact hmem cur hcur
    | enumBorrowFirst c0 rest h1 h2 => exact hmem cur hcur
    | enumFinishFalse c0 h1 h2 => exact hmem cur hcur
    | enumFinishAdvance c0 nxt h1 h2 h3 => exact hmem cur hcur
    | enumFinishLast c0 h1 h2 h3 => exact hmem cur hcur
    | removerRemove h1 h2 =>
        have hne : cur ≠ r := by
          intro he
          rw [he] at hcnt1
          omega
        exact (List.mem_erase_of_ne hne).mpr (hmem cur hcur)
  · intro cur hcur hfalse
    cases hst with
    | enumStartEmpty h1 h2 =>
        rw [h1] at hcur
        exact absurd hcur (by simp)
    | enumBorrowFirst c0 rest h1 h2 =>
        rw [h1] at hcur
        exact absurd hcur (by simp)
    | enumFinishFalse c0 h1 h2 =>
        left
        rfl
    | enumFinishAdvance c0 nxt h1 h2 h3 =>
        rw [h1] at hcur
        rw [EnumPc.inCb.injEq] at hcur
        rw [hcur, hfalse] at h2
        exact absurd h2 (by simp)
    | enumFinishLast c0 h1 h2 h3 =>
        rw [h1] at hcur
        rw [EnumPc.inCb.injEq] at hcur
        rw [hcur, hfalse] at h2
        exact absurd h2 (by simp)
    | removerRemove h1 h2 =>
        right
        rfl

/-! ### Witnesses -/

/-- C2 witness: the amended framing theorem applied to the 3-byte raw image
`imgRawW`, image id 5, segment 0. -/
theorem claim_C2_witness :
    image_is_pak imgRawW = false ∧ (0 : Nat) < 65536 ∧
    sendImageRawSpec 5 0 imgRawW :=
  ⟨rfl, by norm_num, claim_C2_nonpak_framing 5 0 imgRawW rfl (by norm_num)⟩

/-- C3 witness: the PAK extraction theorem applied to the 20-byte PAK image
`imgPakW`, image id 6, segment 0. -/
theorem claim_C3_witness :
    (0 : Nat) < 65536 ∧ sendPakSpec 6 0 imgPakW :=
  ⟨by norm_num, claim_C3_pak_extraction 6 0 imgPakW (by norm_num)⟩

/-- C5 witness: the amended dispatch theorem applied to the body
00 34 12 00 (segment 0 of image 0x001234) with an always-failing loader. -/
theorem claim_C5_witness :
    ([0, 52, 18, 0] : List Nat).length = 4 ∧
    packetRequestSpec [0, 52, 18, 0] loadNone :=
  ⟨rfl, claim_C5_packet_request [0, 52, 18, 0] loadNone rfl⟩

/-- C6 witness: the time-packet theorem applied to the concrete local time
`tmW` (Tuesday 1984-01-03 12:34:56). -/
theorem claim_C6_witness :
    tmW.tm_wday ≤ 6 ∧ tmW.tm_mon ≤ 11 ∧ tmW.tm_mday ≤ 31 ∧ tmW.tm_hour ≤ 23 ∧
    tmW.tm_min ≤ 59 ∧ tmW.tm_sec ≤ 60 ∧ timePacketSpec tmW :=
  ⟨by decide, by decide, by decide, by decide, by decide, by decide,
   claim_C6_time_packet tmW (by decide) (by decide) (by decide) (by decide)
     (by decide) (by decide)⟩

/-- C9 witness: the registry theorem applied to the one-connection registry
`regInit0` (reachable in zero steps) and the remover's unlink step. -/
theorem claim_C9_witness :
    RegInv regInit0 ∧ RegStep regFn0 0 regInit0 regRemoved0 ∧
    regSafetySpec regFn0 regInit0 regRemoved0 := by
  have hinv : RegInv regInit0 :=
    ⟨by decide, fun c => rfl, fun cur h => nomatch h⟩
  have hstep : RegStep regFn0 0 regInit0 regRemoved0 :=
    RegStep.removerRemove regInit0 rfl rfl
  exact ⟨hinv, hstep, claim_C9_registry_borrow regFn0 0 regInit0 regInit0
    regRemoved0 hinv Relation.ReflTransGen.refl hstep⟩
